import Mathlib

/-!
Verification of the RUDP (reliable transmission over UDP) repository.

The development shallowly embeds the packet wire model, the receiver steps of
the three server variants (`rudp_server.py`, `demo.py`, `server.py`), and the
sender's stop-and-wait retry loop (`demo.py` / `client.py`, whose loop bodies
are line-for-line identical in the modelled respects).

Modelling conventions:
* Python strings become Lean `String`; `ord c` becomes `Char.toNat c`.
* The JSON envelope produced by `RUDPPacket.to_json` and consumed by
  `RUDPPacket.from_json` is modelled as a record of optional fields
  (`PacketDict`); `json.dumps` / `json.loads` is a faithful bijection on such
  records, and a `json.JSONDecodeError` on arbitrary input bytes is modelled
  by the `none` case of `Option PacketDict`.  The `timestamp` field is a
  wall-clock read; no claim concerns it and it is omitted from the record.
* Python dicts keyed by integers become association lists with
  first-match lookup and replace-on-store, which matches dict semantics
  for every lookup the code performs.
* Randomness (`random.random()`, `random.uniform`, `random.randint`) is made
  explicit: each step takes the drawn values, or the boolean outcome of the
  corresponding Bernoulli test, as input.
-/

namespace RUDP

/-- `RUDPPacket._calculate_checksum` (rudp_simulation.py / demo.py, identical):
`sum(ord(c) for c in data) % 65536`. -/
def calcChecksum (s : String) : Nat :=
  (s.data.map Char.toNat).sum % 65536

/-- The in-memory packet object of `rudp_simulation.py` / `demo.py`
(`timestamp` omitted, see the module comment). -/
structure RUDPPacket where
  sequence : Nat
  data : String
  is_ack : Bool
  ack_number : Option Nat
  checksum : Nat
  is_corrupted : Bool
deriving DecidableEq, Repr

/-- `RUDPPacket.__init__`: the checksum is computed from the payload for data
packets and set to 0 for acks; `is_corrupted` starts false. -/
def mkPacket (sequence : Nat) (data : String) (is_ack : Bool)
    (ack_number : Option Nat) : RUDPPacket :=
  { sequence := sequence, data := data, is_ack := is_ack,
    ack_number := ack_number,
    checksum := if is_ack then 0 else calcChecksum data,
    is_corrupted := false }

/-- A data packet as the client constructs it:
`RUDPPacket(sequence=seq, data=chunk)`. -/
def mkDataPacket (seq : Nat) (data : String) : RUDPPacket :=
  mkPacket seq data false none

/-- An ack packet as the servers construct it:
`RUDPPacket(is_ack=True, ack_number=n)`. -/
def mkAckPacket (n : Nat) : RUDPPacket :=
  mkPacket 0 ("") true (some n)

/-- The JSON envelope of `to_json` / `from_json`, with every field optional
(a key may be absent from a parsed object). -/
structure PacketDict where
  sequence : Option Nat
  is_ack : Option Bool
  checksum : Option Nat
  data : Option String
  ack_number : Option Nat
deriving DecidableEq, Repr

/-- `RUDPPacket.to_json`: acks serialize `ack_number` (possibly null, which
reads back as an absent value), data packets serialize `data`. -/
def toJson (p : RUDPPacket) : PacketDict :=
  if p.is_ack then
    { sequence := some p.sequence, is_ack := some p.is_ack,
      checksum := some p.checksum, data := none, ack_number := p.ack_number }
  else
    { sequence := some p.sequence, is_ack := some p.is_ack,
      checksum := some p.checksum, data := some p.data, ack_number := none }

/-- `RUDPPacket.from_json`: a `json.JSONDecodeError` (the `none` case) yields a
fresh packet with `is_corrupted = True`; otherwise every missing field
defaults (`0` / `False` / empty), and the inactive variant's fields are
cleared. -/
def fromJson : Option PacketDict → RUDPPacket
  | none => { mkPacket 0 ("") false none with is_corrupted := true }
  | some d =>
      let isAck := d.is_ack.getD false
      { sequence := d.sequence.getD 0,
        is_ack := isAck,
        checksum := d.checksum.getD 0,
        data := if isAck then ("") else d.data.getD (""),
        ack_number := if isAck then d.ack_number else none,
        is_corrupted := false }

/-- `RUDPPacket.verify_checksum`: acks always pass; data packets pass iff the
recomputed checksum equals the stored one. -/
def verifyChecksum (p : RUDPPacket) : Bool :=
  if p.is_ack then true else calcChecksum p.data == p.checksum

/-- The corruption injection point (`packet.checksum = random.randint(0, 65535)`
in `NetworkSimulator.simulate_packet_transfer` and in the server/client
corruption branches): overwrite the checksum field. -/
def setChecksum (p : RUDPPacket) (v : Nat) : RUDPPacket :=
  { p with checksum := v }

/-- The all-absent parsed object `{}`. -/
def emptyDict : PacketDict :=
  ⟨none, none, none, none, none⟩

/-- The outcome of `json.loads` on an arbitrary input byte string: a parse
error (`json.JSONDecodeError`), a JSON value that is not an object — a
list, number, string, boolean or null, carried here as the input's text,
e.g. "[1, 2]" or "42" — or an object with the envelope's recognized
fields. -/
inductive ParsedJson where
  | parseError
  | nonObject (text : String)
  | obj (d : PacketDict)
deriving DecidableEq, Repr

/-- `RUDPPacket.from_json` over every input byte string.  The `try` block
catches only `json.JSONDecodeError`, so a parse error returns the
corrupted-packet marker; but an input that parses to a non-object JSON
value reaches `packet_dict.get("sequence", 0)` on a value with no `get`
attribute and raises `AttributeError`, which propagates past the
boundary (the `none` case below — no packet, no marker); a parsed object
is decoded field-by-field with defaults. -/
def fromJsonFull : ParsedJson → Option RUDPPacket
  | ParsedJson.parseError => some (fromJson none)
  | ParsedJson.nonObject _ => none
  | ParsedJson.obj d => some (fromJson (some d))

/-- C4: for every data packet constructed from a sequence number and a payload
string, decoding its encoding (`from_json` of `to_json`) reproduces
`sequence`, `payload` and `checksum` exactly, and `verify_checksum` on the
round-tripped packet equals `verify_checksum` on the original. -/
theorem roundtripDataPacket (seq : Nat) (s : String) :
    (fromJson (some (toJson (mkDataPacket seq s)))).sequence
        = (mkDataPacket seq s).sequence ∧
    (fromJson (some (toJson (mkDataPacket seq s)))).data
        = (mkDataPacket seq s).data ∧
    (fromJson (some (toJson (mkDataPacket seq s)))).checksum
        = (mkDataPacket seq s).checksum ∧
    verifyChecksum (fromJson (some (toJson (mkDataPacket seq s))))
        = verifyChecksum (mkDataPacket seq s) := by
  simp [fromJson, toJson, mkDataPacket, mkPacket, verifyChecksum]

/-- C5 counterexample: the corruption step may write `0` (a value inside
`[0, 65535]`, the inclusive range of `random.randint(0, 65535)`) into the
checksum of a data packet with empty payload, whose correct checksum is `0`;
`verify_checksum` then returns `true`, not `false` as the claim states. -/
theorem corruptedChecksumCanVerify :
    verifyChecksum (setChecksum (mkDataPacket 0 ("")) 0) = true := by
  decide

/-- C5 amended: overwriting the checksum of a data packet with a value in
`[0, 65535]` that differs from the payload's correct checksum
(`sum of character codes mod 65536`) makes `verify_checksum` return `false`;
when the overwritten value happens to equal the correct checksum — possible
for every payload, e.g. value `0` on the empty payload — the packet still
verifies. -/
theorem verifyFailsOnChangedChecksum (seq : Nat) (s : String) (v : Nat)
    (hv : v ≤ 65535) (hne : v ≠ calcChecksum s) :
    verifyChecksum (setChecksum (mkDataPacket seq s) v) = false := by
  simp only [verifyChecksum, setChecksum, mkDataPacket, mkPacket]
  simp [Ne.symm hne]

theorem verifyFailsOnChangedChecksum_wit :
    (1 ≤ 65535) ∧ ((1 : Nat) ≠ calcChecksum ("")) ∧
    verifyChecksum (setChecksum (mkDataPacket 0 ("")) 1) = false :=
  ⟨by decide, by decide,
    verifyFailsOnChangedChecksum 0 ("") 1 (by decide) (by decide)⟩

/-- C6: at creation time, the checksum stored in a data packet equals the sum
of the payload's character code values modulo 65536, which is exactly the
quantity `verify_checksum` recomputes — so every freshly constructed data
packet verifies. -/
theorem checksumAtCreation (seq : Nat) (s : String) :
    (mkDataPacket seq s).checksum = (s.data.map Char.toNat).sum % 65536 ∧
    verifyChecksum (mkDataPacket seq s) = true := by
  constructor
  · rfl
  · simp [verifyChecksum, mkDataPacket, mkPacket, calcChecksum]

/-- C7 counterexample: the input byte string "[1, 2]" parses as JSON but not
as an object, so `from_json` raises `AttributeError` at
`packet_dict.get("sequence", 0)` — only `json.JSONDecodeError` is caught —
and the exception propagates past the boundary: no packet and no
corrupted-packet marker is returned, refuting "decode returns a value for
every input byte string and never propagates an exception". -/
theorem nonObjectJsonRaises :
    fromJsonFull (ParsedJson.nonObject ("[1, 2]")) = none := by
  rfl

/-- C7 amended: `from_json` returns the distinguished corrupted-packet
marker when the input is not parseable JSON, and on an input that parses to
an object it returns an unmarked packet whose missing fields default to
`0`, `false`, empty string or absent ack number — but an input that parses
to a non-object JSON value (a list, number, string, boolean or null) raises
`AttributeError` past the boundary, because the decoder catches only
`json.JSONDecodeError`. -/
theorem decodeDefaultsAndRaises :
    (fromJsonFull ParsedJson.parseError = some (fromJson none) ∧
      (fromJson none).is_corrupted = true) ∧
    (∀ d : PacketDict,
      fromJsonFull (ParsedJson.obj d) = some (fromJson (some d)) ∧
      (fromJson (some d)).is_corrupted = false) ∧
    (∀ t : String, fromJsonFull (ParsedJson.nonObject t) = none) ∧
    fromJsonFull (ParsedJson.obj emptyDict) =
      some { sequence := 0, data := (""), is_ack := false, ack_number := none,
             checksum := 0, is_corrupted := false } := by
  refine ⟨⟨rfl, rfl⟩, ?_, fun t => rfl, rfl⟩
  intro d
  exact ⟨rfl, rfl⟩

/-! ## Sender engine: the per-chunk stop-and-wait loop of `demo.py`
(`RUDPClient.send_message`, inner `while not sent and retries < max_retries`
loop; `client.py` lines 67-136 are the same loop with an extra
connection-reset branch that also increments `retries`). -/

/-- What the environment does on one loop iteration after the initial
`should_drop_packet()` draw came out non-dropping: the corruption Bernoulli
test fired; the ACK wait timed out; the received ACK was eaten by the
simulated ACK-loss test; a reply arrived and parsed to `d`; or `sendto`
raised. -/
inductive RestEvent where
  | corruptOut
  | timeoutEv
  | ackLost
  | reply (d : Option PacketDict)
  | sendErr
deriving DecidableEq, Repr

/-- One loop iteration's environment input: the `random.random()` draw fed to
the initial `should_drop_packet()` test, and what happens afterwards. -/
structure LoopInput where
  rdrop : ℚ
  rest : RestEvent
deriving DecidableEq, Repr

/-- The client-side loop variables: `retries`, `sent`, `next_sequence`
(the outstanding chunk's packet carries `sequence = next_sequence`, which
only changes when the chunk is acknowledged). -/
structure ClientState where
  retries : Nat
  sent : Bool
  next_sequence : Nat
deriving DecidableEq, Repr

/-- One iteration of the `demo.py` send loop body. Dropped outgoing packet,
corrupted outgoing packet, simulated ACK loss, timeout and send error all do
`retries += 1`; a reply is decoded with `from_json` and advances
(`sent = True`, `next_sequence += 1`) only when it is an ack whose
`ack_number` equals `next_sequence` — any other reply leaves every loop
variable unchanged. -/
def clientStep (lossRate : ℚ) (s : ClientState) (inp : LoopInput) : ClientState :=
  if inp.rdrop < lossRate then { s with retries := s.retries + 1 }
  else
    match inp.rest with
    | .corruptOut => { s with retries := s.retries + 1 }
    | .timeoutEv => { s with retries := s.retries + 1 }
    | .ackLost => { s with retries := s.retries + 1 }
    | .sendErr => { s with retries := s.retries + 1 }
    | .reply d =>
        let ack := fromJson d
        if ack.is_ack = true ∧ ack.ack_number = some s.next_sequence then
          { s with sent := true, next_sequence := s.next_sequence + 1 }
        else s

/-- The `while not sent and retries < max_retries` loop, driven by the finite
trace of environment inputs observed so far; returns the final loop state and
the number of iterations executed. -/
def sendChunkLoop (lossRate : ℚ) (maxRetries : Nat) (s : ClientState) :
    List LoopInput → ClientState × Nat
  | [] => (s, 0)
  | inp :: rest =>
      if s.sent = false ∧ s.retries < maxRetries then
        let r := sendChunkLoop lossRate maxRetries (clientStep lossRate s inp) rest
        (r.1, r.2 + 1)
      else (s, 0)

/-- Helper: with loss probability 1 every iteration takes the drop branch
(`random.random()` returns a value in `[0, 1)`), so each iteration consumes
exactly one attempt until `retries` reaches the budget. -/
theorem sendChunkLoopAllDrop (budget : Nat) :
    ∀ (inputs : List LoopInput) (s : ClientState),
      (∀ inp ∈ inputs, 0 ≤ inp.rdrop ∧ inp.rdrop < 1) →
      s.sent = false → s.retries ≤ budget → budget ≤ s.retries + inputs.length →
      sendChunkLoop 1 budget s inputs
        = ({ s with retries := budget }, budget - s.retries) := by
  intro inputs
  induction inputs with
  | nil =>
      intro s _ hsent hle hge
      have heq : s.retries = budget := Nat.le_antisymm hle (by simpa using hge)
      cases s
      simp_all [sendChunkLoop]
  | cons inp rest ih =>
      rintro ⟨rt, st, sq⟩ hin hsent hle hge
      simp only at hsent hle hge
      subst hsent
      by_cases hlt : rt < budget
      · have hdrop : inp.rdrop < 1 := (hin inp (by simp)).2
        have hstep : clientStep 1 ⟨rt, false, sq⟩ inp = ⟨rt + 1, false, sq⟩ := by
          simp [clientStep, hdrop]
        have hrec := ih ⟨rt + 1, false, sq⟩
          (fun i hi => hin i (by simp [hi])) rfl hlt
          (by simp only [List.length_cons] at hge; simp only []; omega)
        simp only [sendChunkLoop, hlt, and_self, if_pos, hstep, hrec]
        simp only [Prod.mk.injEq, true_and]
        omega
      · have heq : rt = budget := Nat.le_antisymm hle (Nat.not_lt.mp hlt)
        subst heq
        simp [sendChunkLoop]

/-- C8: with loss probability 1, the per-chunk send loop consumes one attempt
per iteration and stops after exactly the budgeted number of attempts with
`sent` still false, so `send_message` reports the chunk as FAILED
(`return False`) after exactly `max_retries` attempts and never loops
indefinitely — for any payload (the loop variables do not depend on the
chunk content) and any environment trace at least as long as the budget. -/
theorem lossOneExhaustsBudget (budget seq0 : Nat) (inputs : List LoopInput)
    (hin : ∀ inp ∈ inputs, 0 ≤ inp.rdrop ∧ inp.rdrop < 1)
    (hlen : budget ≤ inputs.length) :
    sendChunkLoop 1 budget ⟨0, false, seq0⟩ inputs
      = (⟨budget, false, seq0⟩, budget) := by
  simpa using sendChunkLoopAllDrop budget inputs ⟨0, false, seq0⟩ hin rfl
    (Nat.zero_le _) (by simpa using hlen)

theorem lossOneExhaustsBudget_wit :
    (∀ inp ∈ [LoopInput.mk 0 RestEvent.timeoutEv, LoopInput.mk 0 RestEvent.timeoutEv],
        0 ≤ inp.rdrop ∧ inp.rdrop < 1) ∧ 2 ≤ 2 ∧
    sendChunkLoop 1 2 ⟨0, false, 0⟩
        [LoopInput.mk 0 RestEvent.timeoutEv, LoopInput.mk 0 RestEvent.timeoutEv]
      = (⟨2, false, 0⟩, 2) :=
  ⟨by decide, by decide,
    lossOneExhaustsBudget 2 0 _ (by decide) (by decide)⟩

/-- A reply dict that decodes to an ack for sequence 999. -/
def wrongAckDict : Option PacketDict :=
  some ⟨none, some true, none, none, some 999⟩

/-- C3 counterexample: with attempt budget 1 and two consecutive replies that
are acks for a different number (999, outstanding sequence 0), the loop runs
2 iterations — more than the budget — and `retries` stays 0: a non-matching
ACK consumes no attempt, so the attempt budget does not bound the number of
loop iterations. -/
theorem wrongAckConsumesNoAttempt :
    sendChunkLoop 0 1 ⟨0, false, 0⟩
        [LoopInput.mk 1 (RestEvent.reply wrongAckDict),
         LoopInput.mk 1 (RestEvent.reply wrongAckDict)]
      = (⟨0, false, 0⟩, 2) := by
  decide

/-- C3 amended: a received reply that is an acknowledgment for a different
number than the outstanding sequence, or that fails to decode (decoding to
the corrupted-packet marker, which is not a matching ack), causes a retry
without consuming an attempt: the loop iteration leaves `retries`, `sent`
and `next_sequence` all unchanged.  Only drops, corrupted sends, simulated
ACK loss, timeouts and send errors consume attempts, so the attempt budget
bounds the number of attempt-consuming iterations but not the total number
of loop iterations. -/
theorem wrongAckRetriesWithoutConsuming (lossRate : ℚ) (s : ClientState)
    (inp : LoopInput) (d : Option PacketDict)
    (hnd : ¬ inp.rdrop < lossRate) (hr : inp.rest = RestEvent.reply d)
    (hw : ¬((fromJson d).is_ack = true ∧
        (fromJson d).ack_number = some s.next_sequence)) :
    clientStep lossRate s inp = s := by
  simp [clientStep, hnd, hr, hw]

theorem wrongAckRetriesWithoutConsuming_wit :
    (¬ (1 : ℚ) < 0) ∧
    (¬((fromJson wrongAckDict).is_ack = true ∧
        (fromJson wrongAckDict).ack_number = some 0)) ∧
    clientStep 0 ⟨0, false, 0⟩ (LoopInput.mk 1 (RestEvent.reply wrongAckDict))
      = ⟨0, false, 0⟩ :=
  ⟨by decide, by decide,
    wrongAckRetriesWithoutConsuming 0 ⟨0, false, 0⟩
      (LoopInput.mk 1 (RestEvent.reply wrongAckDict)) wrongAckDict
      (by decide) rfl (by decide)⟩

/-! ## Message-level sending (`rudp_client.py` `send_message`, identical
control shape in `demo.py` / `client.py`): chunks are attempted in order,
each through one `send_packet` call whose boolean outcome we abstract as an
oracle `outcome seq chunk`; on the first failure the loop breaks. -/

/-- `RUDPClient.send_message`'s chunk loop, starting at sequence `seq`:
returns the overall success flag and the number of chunks attempted. -/
def sendMessageGo (outcome : Nat → String → Bool) :
    Nat → List String → Bool × Nat
  | _, [] => (true, 0)
  | seq, c :: rest =>
      if outcome seq c then
        let r := sendMessageGo outcome (seq + 1) rest
        (r.1, r.2 + 1)
      else (false, 1)

/-- Helper: success of the chunk loop is exactly success of every chunk. -/
theorem sendMessageGoSuccess (outcome : Nat → String → Bool) :
    ∀ (chunks : List String) (seq : Nat),
      (sendMessageGo outcome seq chunks).1 = true ↔
        ∀ i < chunks.length, outcome (seq + i) (chunks.getD i ("")) = true := by
  intro chunks
  induction chunks with
  | nil => intro seq; simp [sendMessageGo]
  | cons c rest ih =>
      intro seq
      cases hc : outcome seq c with
      | true =>
          simp only [sendMessageGo, hc, if_true]
          rw [ih (seq + 1)]
          constructor
          · intro h i hi
            match i with
            | 0 => simpa using hc
            | j + 1 =>
                have := h j (by simpa using Nat.lt_of_succ_lt_succ hi)
                simpa [Nat.add_assoc, Nat.add_comm 1 j] using this
          · intro h j hj
            have := h (j + 1) (by simpa using Nat.succ_lt_succ hj)
            simpa [Nat.add_assoc, Nat.add_comm 1 j] using this
      | false =>
          simp only [sendMessageGo, hc, Bool.false_eq_true, if_false]
          refine iff_of_false (by simp) (fun h => ?_)
          have h0 := h 0 (by simp)
          simp [hc] at h0

/-- Helper: the chunk loop stops at the first failing chunk, having attempted
exactly that chunk and the ones before it. -/
theorem sendMessageGoFailAt (outcome : Nat → String → Bool) :
    ∀ (chunks : List String) (seq i : Nat), i < chunks.length →
      (∀ j < i, outcome (seq + j) (chunks.getD j ("")) = true) →
      outcome (seq + i) (chunks.getD i ("")) = false →
      sendMessageGo outcome seq chunks = (false, i + 1) := by
  intro chunks
  induction chunks with
  | nil => intro seq i hi; simp at hi
  | cons c rest ih =>
      intro seq i hi hpre hfail
      match i with
      | 0 =>
          have hc : outcome seq c = false := by simpa using hfail
          simp [sendMessageGo, hc]
      | j + 1 =>
          have hc : outcome seq c = true := by simpa using hpre 0 (Nat.succ_pos j)
          have hpre' : ∀ k < j, outcome (seq + 1 + k) (rest.getD k ("")) = true := by
            intro k hk
            have := hpre (k + 1) (Nat.succ_lt_succ hk)
            simpa [Nat.add_assoc, Nat.add_comm 1 k] using this
          have hfail' : outcome (seq + 1 + j) (rest.getD j ("")) = false := by
            simpa [Nat.add_assoc, Nat.add_comm 1 j] using hfail
          have hrec := ih (seq + 1) j (by simpa using Nat.lt_of_succ_lt_succ hi)
            hpre' hfail'
          simp [sendMessageGo, hc, hrec]

/-- C9: the message send succeeds exactly when every chunk's `send_packet`
call reached its acknowledged (ADVANCED) outcome; and if the first failing
chunk is at index `i` — its attempt budget exhausted, `send_packet`
returning FAILED — the loop reports overall failure having attempted exactly
the chunks up to and including index `i`, never any chunk after it. -/
theorem chunkFailureAborts (outcome : Nat → String → Bool)
    (chunks : List String) :
    ((sendMessageGo outcome 0 chunks).1 = true ↔
      ∀ i < chunks.length, outcome i (chunks.getD i ("")) = true) ∧
    (∀ i < chunks.length,
      (∀ j < i, outcome j (chunks.getD j ("")) = true) →
      outcome i (chunks.getD i ("")) = false →
      sendMessageGo outcome 0 chunks = (false, i + 1)) := by
  constructor
  · simpa using sendMessageGoSuccess outcome chunks 0
  · intro i hi hpre hfail
    exact sendMessageGoFailAt outcome chunks 0 i hi (by simpa using hpre)
      (by simpa using hfail)

theorem chunkFailureAborts_wit :
    (1 < 2) ∧
    ((fun i (_ : String) => decide (i = 0)) 0 ((["AB", "CD"]).getD 0 ("")) = true) ∧
    ((fun i (_ : String) => decide (i = 0)) 1 ((["AB", "CD"]).getD 1 ("")) = false) ∧
    sendMessageGo (fun i (_ : String) => decide (i = 0)) 0 (["AB", "CD"])
      = (false, 2) :=
  ⟨by decide, by decide, by decide,
    (chunkFailureAborts (fun i (_ : String) => decide (i = 0)) (["AB", "CD"])).2
      1 (by decide) (by decide) (by decide)⟩

/-! ## Receiver engines. -/

/-- First-match lookup in an association list — Python `k in d` / `d[k]` /
`d.get(k)`. -/
def assocLookup {β : Type} (k : Nat) : List (Nat × β) → Option β
  | [] => none
  | (a, v) :: rest => if a = k then some v else assocLookup k rest

/-- Replace-or-add store — Python `d[k] = v`. -/
def assocStore {β : Type} (k : Nat) (v : β) (l : List (Nat × β)) :
    List (Nat × β) :=
  (k, v) :: l.filter (fun p => p.1 != k)

/-- Remove a key — Python `del d[k]`. -/
def assocErase {β : Type} (k : Nat) (l : List (Nat × β)) : List (Nat × β) :=
  l.filter (fun p => p.1 != k)

/-- The raw json dict of the `rudp_client.py` / `rudp_server.py` pair:
`{'sequence': ..., 'data': ..., 'checksum': ...}`, each key possibly absent
in a parsed object. -/
structure RawDict where
  sequence : Option Nat
  data : Option String
  checksum : Option Nat
deriving DecidableEq, Repr

/-- `rudp_server.py` server state: `expected_sequence` and the
`received_packets` buffer of out-of-order payloads keyed by sequence. -/
structure RSState where
  expected_sequence : Nat
  received_packets : List (Nat × String)
deriving DecidableEq, Repr

/-- `RUDPServer.process_in_order_packets`, fueled: the Python `while` loop
removes one buffer entry per iteration, so the initial buffer length bounds
its iteration count. -/
def processInOrderFuel : Nat → Nat → List (Nat × String) →
    Nat × List (Nat × String)
  | 0, e, buf => (e, buf)
  | fuel + 1, e, buf =>
      match assocLookup e buf with
      | some _ => processInOrderFuel fuel (e + 1) (assocErase e buf)
      | none => (e, buf)

/-- `RUDPServer.process_in_order_packets`: consume consecutive buffered
packets starting at `expected_sequence`. -/
def processInOrderPackets (e : Nat) (buf : List (Nat × String)) :
    Nat × List (Nat × String) :=
  processInOrderFuel buf.length e buf

/-- One iteration of `rudp_server.py` `RUDPServer.start` on one datagram.
`none` models a datagram `json.loads` cannot parse (the raised error is
caught by the loop's `except` clause: no reply, no state change).  A missing
`sequence` key makes `None < int` raise (caught, silent); the duplicate
check and its ACK come BEFORE checksum verification; a missing `data` key
makes the checksum sum raise (caught, silent); a missing `checksum` key
makes `calculated == None` false (silent discard); a verified packet is
stored in `received_packets`, acknowledged, and in-order packets are
processed.  The second component is the `ack` number sent, if any. -/
def rudpServerStep (st : RSState) (d : Option RawDict) : RSState × Option Nat :=
  match d with
  | none => (st, none)
  | some dd =>
      match dd.sequence with
      | none => (st, none)
      | some seq =>
          if seq < st.expected_sequence then (st, some seq)
          else
            match dd.data, dd.checksum with
            | some pdata, some ck =>
                if calcChecksum pdata = ck then
                  let buf := assocStore seq pdata st.received_packets
                  let r := processInOrderPackets st.expected_sequence buf
                  (⟨r.1, r.2⟩, some seq)
                else (st, none)
            | _, _ => (st, none)

/-- The per-datagram impairment decisions a server draws
(`should_drop_packet()`, `should_corrupt_packet()`, the `randint` corruption
value, and the `should_drop_packet()` drawn inside `_send_ack`). -/
structure ServerDraws where
  dropIn : Bool
  corruptIn : Bool
  corruptVal : Nat
  ackDrop : Bool
deriving DecidableEq, Repr

/-- What a server step puts on the wire. -/
inductive ServerReply where
  | noReply
  | ackEmitted (n : Nat) (wire : Option RUDPPacket)
  | pongReply (p : RUDPPacket)
deriving DecidableEq, Repr

/-- `_send_ack` (demo.py / server.py): construct the ack packet, drop it with
probability `loss_rate` (no wire output), else send it. -/
def sendAckSim (drop : Bool) (n : Nat) : Option RUDPPacket :=
  if drop then none else some (mkAckPacket n)

/-- `demo.py` server state: `expected_sequence` and `received_data`;
also the per-peer state block of `server.py`. -/
structure DemoServerState where
  expected_sequence : Nat
  received_data : List String
deriving DecidableEq, Repr

/-- One iteration of `demo.py` `RUDPServer.start` on one datagram: simulated
inbound drop; decode with `from_json`; simulated corruption (checksum
overwritten, packet discarded); checksum verification (silent discard on
failure); then accept-and-ack for the expected sequence, ack-only for a
duplicate, silent discard for a future sequence. -/
def demoServerStep (ev : ServerDraws) (st : DemoServerState)
    (d : Option PacketDict) : DemoServerState × ServerReply :=
  if ev.dropIn then (st, ServerReply.noReply)
  else
    let p := fromJson d
    if ev.corruptIn then (st, ServerReply.noReply)
    else if verifyChecksum p = false then (st, ServerReply.noReply)
    else if p.sequence = st.expected_sequence then
      (⟨st.expected_sequence + 1, st.received_data ++ [p.data]⟩,
        ServerReply.ackEmitted p.sequence (sendAckSim ev.ackDrop p.sequence))
    else if p.sequence < st.expected_sequence then
      (st, ServerReply.ackEmitted p.sequence (sendAckSim ev.ackDrop p.sequence))
    else (st, ServerReply.noReply)

/-- `server.py` multi-client server state: the `clients` mapping from peer
address (abstracted as a number) to per-peer state. -/
structure MultiServerState where
  clients : List (Nat × DemoServerState)
deriving DecidableEq, Repr

/-- One iteration of `server.py` `RUDPServer.start` on one datagram from
`peer`: decode; if the decoded payload is exactly "PING", reply with a fresh
data packet `PONG` (sequence 0) and do nothing else; otherwise create the
peer's state block on first contact, then run the same impairment /
verification / sequence logic as `demo.py`, with the future-sequence case
explicitly discarded without acknowledgment. -/
def serverPyStep (ev : ServerDraws) (peer : Nat) (st : MultiServerState)
    (d : Option PacketDict) : MultiServerState × ServerReply :=
  let p := fromJson d
  if p.data = ("PING") then (st, ServerReply.pongReply (mkDataPacket 0 ("PONG")))
  else
    let cs := (assocLookup peer st.clients).getD ⟨0, []⟩
    let st1 : MultiServerState :=
      match assocLookup peer st.clients with
      | some _ => st
      | none => ⟨assocStore peer ⟨0, []⟩ st.clients⟩
    if ev.dropIn then (st1, ServerReply.noReply)
    else if ev.corruptIn then (st1, ServerReply.noReply)
    else if verifyChecksum p = false then (st1, ServerReply.noReply)
    else if p.sequence = cs.expected_sequence then
      (⟨assocStore peer ⟨cs.expected_sequence + 1, cs.received_data ++ [p.data]⟩
          st1.clients⟩,
        ServerReply.ackEmitted p.sequence (sendAckSim ev.ackDrop p.sequence))
    else if p.sequence < cs.expected_sequence then
      (st1, ServerReply.ackEmitted p.sequence (sendAckSim ev.ackDrop p.sequence))
    else (st1, ServerReply.noReply)

/-- Helper: filtering out a key other than the looked-up one does not change
the lookup. -/
theorem assocLookup_filterNe {β : Type} (k q : Nat) (hqk : q ≠ k) :
    ∀ l : List (Nat × β),
      assocLookup k (l.filter (fun p => p.1 != q)) = assocLookup k l := by
  intro l
  induction l with
  | nil => rfl
  | cons p rest ih =>
      obtain ⟨a, b⟩ := p
      by_cases hq : a = q
      · have hb : ((a, b).1 != q) = false := by simp [hq]
        have hak : ¬ a = k := by
          intro hh
          exact hqk (by rw [← hq, hh])
        rw [List.filter_cons, hb]
        simp only [Bool.false_eq_true, if_false]
        rw [ih]
        simp [assocLookup, hak]
      · have hb : ((a, b).1 != q) = true := by simp [hq]
        rw [List.filter_cons, hb]
        simp only [if_true]
        by_cases hak : a = k
        · simp [assocLookup, hak]
        · simp [assocLookup, hak, ih]

/-- Helper: lookup after a store. -/
theorem assocLookup_store {β : Type} (k q : Nat) (v : β) (l : List (Nat × β)) :
    assocLookup k (assocStore q v l)
      = if q = k then some v else assocLookup k l := by
  by_cases h : q = k
  · simp [assocStore, assocLookup, h]
  · simp only [assocStore, assocLookup, h, if_false]
    exact assocLookup_filterNe k q h l

/-- Helper: processing stops immediately when nothing is buffered at the
expected sequence. -/
theorem processInOrderPackets_none (e : Nat) (buf : List (Nat × String))
    (h : assocLookup e buf = none) :
    processInOrderPackets e buf = (e, buf) := by
  unfold processInOrderPackets
  cases buf with
  | nil => rfl
  | cons p rest => simp [processInOrderFuel, h]

/-- C1 counterexample: a data packet whose recomputed checksum (65, for
payload "A") does not match its stored checksum (999) but whose sequence (0)
is below `expected_sequence` (1) is acknowledged by the `rudp_server.py`
receiver — the duplicate check runs before checksum verification — refuting
"no acknowledgment of any kind, regardless of the packet's sequence number
relative to expected_sequence". -/
theorem corruptDuplicateStillAcked :
    calcChecksum ("A") ≠ 999 ∧
    rudpServerStep ⟨1, []⟩ (some ⟨some 0, some ("A"), some 999⟩)
      = (⟨1, []⟩, some 0) := by
  constructor
  · decide
  · rfl

/-- C1 amended: in `rudp_server.py`, a malformed datagram is discarded with
no reply, and a checksum-mismatched packet whose sequence is at least
`expected_sequence` is discarded with no reply and no state change — but a
packet whose sequence is below `expected_sequence` is acknowledged before
the checksum is ever verified.  In `demo.py`, a datagram that fails to
decode yields the marker packet (sequence 0, empty payload, checksum 0),
which passes checksum verification and is acknowledged as a sequence-0 data
packet whenever the simulated inbound drop and corruption draws pass it
through; a decoded packet that fails checksum verification is discarded with
no reply and no state change. -/
theorem corruptionDiscardPolicy :
    (∀ st : RSState, rudpServerStep st none = (st, none)) ∧
    (∀ (st : RSState) (seq : Nat) (pdata : String) (ck : Nat),
      st.expected_sequence ≤ seq → calcChecksum pdata ≠ ck →
      rudpServerStep st (some ⟨some seq, some pdata, some ck⟩) = (st, none)) ∧
    (∀ (st : RSState) (seq : Nat) (pdata : Option String) (ck : Option Nat),
      seq < st.expected_sequence →
      rudpServerStep st (some ⟨some seq, pdata, ck⟩) = (st, some seq)) ∧
    (∀ (ev : ServerDraws) (st : DemoServerState),
      ev.dropIn = false → ev.corruptIn = false →
      (demoServerStep ev st none).2
        = ServerReply.ackEmitted 0 (sendAckSim ev.ackDrop 0)) ∧
    (∀ (ev : ServerDraws) (st : DemoServerState) (d : Option PacketDict),
      ev.dropIn = false → ev.corruptIn = false →
      verifyChecksum (fromJson d) = false →
      demoServerStep ev st d = (st, ServerReply.noReply)) := by
  refine ⟨fun st => rfl, ?_, ?_, ?_, ?_⟩
  · intro st seq pdata ck hle hne
    have hnlt : ¬ seq < st.expected_sequence := Nat.not_lt.mpr hle
    simp [rudpServerStep, hnlt, hne]
  · intro st seq pdata ck hlt
    simp [rudpServerStep, hlt]
  · intro ev st hdrop hcorrupt
    have hp : fromJson none = ⟨0, (""), false, none, 0, true⟩ := by decide
    have hvv : verifyChecksum (⟨0, (""), false, none, 0, true⟩ : RUDPPacket)
        = true := by decide
    rcases Nat.eq_zero_or_pos st.expected_sequence with he | he
    · simp [demoServerStep, hdrop, hcorrupt, hp, hvv, he]
    · have hne : (0 : Nat) ≠ st.expected_sequence := by omega
      simp [demoServerStep, hdrop, hcorrupt, hp, hvv, hne, he]
  · intro ev st d hdrop hcorrupt hbad
    simp [demoServerStep, hdrop, hcorrupt, hbad]

theorem corruptionDiscardPolicy_wit :
    ((2 : Nat) ≤ 5 ∧ calcChecksum ("A") ≠ 0 ∧
      rudpServerStep ⟨2, []⟩ (some ⟨some 5, some ("A"), some 0⟩)
        = (⟨2, []⟩, none)) ∧
    ((1 : Nat) < 5 ∧
      rudpServerStep ⟨5, []⟩ (some ⟨some 1, none, none⟩) = (⟨5, []⟩, some 1)) ∧
    (demoServerStep ⟨false, false, 0, false⟩ ⟨2, [("x")]⟩ none).2
      = ServerReply.ackEmitted 0 (sendAckSim false 0) ∧
    (verifyChecksum (fromJson (some ⟨some 0, some false, some 999, some ("A"), none⟩))
        = false ∧
      demoServerStep ⟨false, false, 0, false⟩ ⟨0, []⟩
          (some ⟨some 0, some false, some 999, some ("A"), none⟩)
        = (⟨0, []⟩, ServerReply.noReply)) :=
  ⟨⟨by decide, by decide,
      corruptionDiscardPolicy.2.1 ⟨2, []⟩ 5 ("A") 0 (by decide) (by decide)⟩,
    ⟨by decide,
      corruptionDiscardPolicy.2.2.1 ⟨5, []⟩ 1 none none (by decide)⟩,
    corruptionDiscardPolicy.2.2.2.1 ⟨false, false, 0, false⟩ ⟨2, [("x")]⟩
      rfl rfl,
    ⟨by decide,
      corruptionDiscardPolicy.2.2.2.2 ⟨false, false, 0, false⟩ ⟨0, []⟩
        (some ⟨some 0, some false, some 999, some ("A"), none⟩) rfl rfl
        (by decide)⟩⟩

/-- C2 counterexample: a valid data packet with sequence 1 arriving at the
`rudp_server.py` receiver whose `expected_sequence` is 0 is both stored in
the `received_packets` buffer and acknowledged — refuting "discards it
without sending any acknowledgment and without storing or buffering its
payload". -/
theorem futureSeqStoredAndAcked :
    rudpServerStep ⟨0, []⟩ (some ⟨some 1, some ("A"), some 65⟩)
      = (⟨0, [(1, ("A"))]⟩, some 1) := by
  rfl

/-- C2 amended: the `demo.py` receiver and the `server.py` receiver discard a
verified data packet whose sequence is strictly greater than the (per-peer)
`expected_sequence` without acknowledgment, state change or buffering; the
`rudp_server.py` receiver instead stores such a packet's payload in its
`received_packets` buffer, keyed by its sequence, and acknowledges it. -/
theorem futureSeqPolicy :
    (∀ (ev : ServerDraws) (st : DemoServerState) (d : Option PacketDict),
      ev.dropIn = false → ev.corruptIn = false →
      verifyChecksum (fromJson d) = true →
      st.expected_sequence < (fromJson d).sequence →
      demoServerStep ev st d = (st, ServerReply.noReply)) ∧
    (∀ (ev : ServerDraws) (peer : Nat) (st : MultiServerState)
        (d : Option PacketDict) (cs : DemoServerState),
      ev.dropIn = false → ev.corruptIn = false →
      (fromJson d).data ≠ ("PING") →
      assocLookup peer st.clients = some cs →
      verifyChecksum (fromJson d) = true →
      cs.expected_sequence < (fromJson d).sequence →
      serverPyStep ev peer st d = (st, ServerReply.noReply)) ∧
    (∀ (st : RSState) (seq : Nat) (pdata : String),
      st.expected_sequence < seq →
      assocLookup st.expected_sequence st.received_packets = none →
      rudpServerStep st (some ⟨some seq, some pdata, some (calcChecksum pdata)⟩)
          = (⟨st.expected_sequence,
              assocStore seq pdata st.received_packets⟩, some seq) ∧
        assocLookup seq (assocStore seq pdata st.received_packets)
          = some pdata) := by
  refine ⟨?_, ?_, ?_⟩
  · intro ev st d hdrop hcorrupt hv hgt
    have hne : (fromJson d).sequence ≠ st.expected_sequence := by omega
    have hnlt : ¬ (fromJson d).sequence < st.expected_sequence :=
      Nat.not_lt.mpr (Nat.le_of_lt hgt)
    simp [demoServerStep, hdrop, hcorrupt, hv, hne, hnlt]
  · intro ev peer st d cs hdrop hcorrupt hping hcl hv hgt
    have hne : (fromJson d).sequence ≠ cs.expected_sequence := by omega
    have hnlt : ¬ (fromJson d).sequence < cs.expected_sequence :=
      Nat.not_lt.mpr (Nat.le_of_lt hgt)
    simp [serverPyStep, hping, hcl, hdrop, hcorrupt, hv, hne, hnlt]
  · intro st seq pdata hgt hnone
    have hnlt : ¬ seq < st.expected_sequence :=
      Nat.not_lt.mpr (Nat.le_of_lt hgt)
    constructor
    · have hnb : assocLookup st.expected_sequence
          (assocStore seq pdata st.received_packets) = none := by
        rw [assocLookup_store]
        simp only [hnone, ite_eq_right_iff]
        intro h
        omega
      simp [rudpServerStep, hnlt, processInOrderPackets_none _ _ hnb]
    · rw [assocLookup_store]
      simp

theorem futureSeqPolicy_wit :
    (verifyChecksum (fromJson (some ⟨some 3, some false, some 65, some ("A"), none⟩))
        = true ∧
      (0 : Nat) < 3 ∧
      demoServerStep ⟨false, false, 0, false⟩ ⟨0, []⟩
          (some ⟨some 3, some false, some 65, some ("A"), none⟩)
        = (⟨0, []⟩, ServerReply.noReply)) ∧
    ((fromJson (some ⟨some 3, some false, some 65, some ("A"), none⟩)).data
        ≠ ("PING") ∧
      assocLookup 7 ([(7, (⟨0, []⟩ : DemoServerState))]) = some ⟨0, []⟩ ∧
      serverPyStep ⟨false, false, 0, false⟩ 7 ⟨[(7, ⟨0, []⟩)]⟩
          (some ⟨some 3, some false, some 65, some ("A"), none⟩)
        = (⟨[(7, ⟨0, []⟩)]⟩, ServerReply.noReply)) ∧
    ((0 : Nat) < 2 ∧ assocLookup 0 ([] : List (Nat × String)) = none ∧
      rudpServerStep ⟨0, []⟩ (some ⟨some 2, some ("B"), some (calcChecksum ("B"))⟩)
          = (⟨0, assocStore 2 ("B") []⟩, some 2) ∧
        assocLookup 2 (assocStore 2 ("B") ([] : List (Nat × String)))
          = some ("B")) :=
  ⟨⟨by decide, by decide,
      futureSeqPolicy.1 ⟨false, false, 0, false⟩ ⟨0, []⟩
        (some ⟨some 3, some false, some 65, some ("A"), none⟩) rfl rfl
        (by decide) (by decide)⟩,
    ⟨by decide, by decide,
      futureSeqPolicy.2.1 ⟨false, false, 0, false⟩ 7 ⟨[(7, ⟨0, []⟩)]⟩
        (some ⟨some 3, some false, some 65, some ("A"), none⟩) ⟨0, []⟩ rfl rfl
        (by decide) (by decide) (by decide) (by decide)⟩,
    ⟨by decide, by decide,
      futureSeqPolicy.2.2 ⟨0, []⟩ 2 ("B") (by decide) (by decide)⟩⟩

/-- C10: any inbound datagram that decodes to a packet whose payload is
exactly "PING" makes the `server.py` receiver reply with a fresh data packet
carrying payload "PONG" and sequence 0, with no duplicate check, no checksum
verification, no acknowledgment and no state change (not even first-contact
client registration) — so a legitimate message chunk whose content happens
to be "PING" is never acknowledged, for every server state and every
impairment draw. -/
theorem pingBypassesProtocol (ev : ServerDraws) (peer : Nat)
    (st : MultiServerState) (d : Option PacketDict)
    (hping : (fromJson d).data = ("PING")) :
    serverPyStep ev peer st d = (st, ServerReply.pongReply (mkDataPacket 0 ("PONG"))) := by
  simp [serverPyStep, hping]

theorem pingBypassesProtocol_wit :
    ((fromJson (some ⟨some 4, none, some 5, some ("PING"), none⟩)).data = ("PING")) ∧
    serverPyStep ⟨true, true, 3, true⟩ 7 ⟨[]⟩
        (some ⟨some 4, none, some 5, some ("PING"), none⟩)
      = (⟨[]⟩, ServerReply.pongReply (mkDataPacket 0 ("PONG"))) :=
  ⟨by decide,
    pingBypassesProtocol ⟨true, true, 3, true⟩ 7 ⟨[]⟩
      (some ⟨some 4, none, some 5, some ("PING"), none⟩) (by decide)⟩

end RUDP
